import Mathlib

/-!
Shallow embedding of the authentication core of the smart-learning
repository (auth-service, `AuthService` in the NestJS source).

Modelling choices:
- Time is a `Nat` (seconds); each operation takes the current time `now`
  explicitly, standing for the `new Date()` calls in the source.
- Secrets are symbolic values (`Val`): `crypto.randomBytes(...).toString(hex)`
  becomes a fresh `Val.rand n` drawn from a counter in the state,
  `crypto.createHash(sha256)` becomes the free constructor `Val.hash`,
  `bcrypt.hash` becomes `Val.bhash` and `bcrypt.compare` checks equality with
  `Val.bhash` (the standard symbolic model of one-way functions), and
  `jwtService.sign` of payload `\x7b sub \x7d` with lifetime `ttl` becomes
  `Val.jwt sub now (now + ttl)`.
- The Prisma tables become lists of records inside `AuthState`;
  `findUnique` becomes `List.find?`, `update`/`updateMany` become `List.map`
  guarded by the `where` predicate, `create` appends a row.
- NestJS exceptions become the `HttpError` inductive carrying the exact
  message string thrown by the source; an operation returns the state it
  leaves behind together with `Except HttpError result` (a thrown exception
  may still have performed writes, e.g. `handleFailedLogin`).
-/

/-- Symbolic values: emails/passwords are strings, random tokens are counter
indexed, signed JWTs carry subject, issue time and expiry, `hash` is the
SHA-256 of a value and `bhash` the bcrypt digest of a password. -/
inductive Val where
  | str (s : String)
  | rand (n : Nat)
  | jwt (sub : Nat) (iat : Nat) (exp : Nat)
  | hash (v : Val)
  | bhash (p : String)
  deriving DecidableEq, Repr

/-- Model of `AuthService.hashToken`: sha256 hex digest of the token. -/
def hashToken (t : Val) : Val := Val.hash t

/-- Model of `bcrypt.compare(password, storedHash)` in the symbolic model. -/
def bcryptCompare (password : String) (storedHash : Val) : Bool :=
  storedHash == Val.bhash password

/-- Whether a `Val` is a hash digest (used to state at-rest hashing facts). -/
def isHashVal : Val → Bool
  | .hash _ => true
  | _ => false

/-- The `UserStatus` enum of the Prisma schema. -/
inductive UserStatus where
  | ACTIVE
  | INACTIVE
  | SUSPENDED
  | PENDING_VERIFICATION
  deriving DecidableEq, Repr

/-- A row of the `users` table. -/
structure User where
  id : Nat
  email : String
  password_hash : Val
  email_verified : Bool
  email_verified_at : Option Nat
  status : UserStatus
  failed_login_attempts : Nat
  locked_until : Option Nat
  last_login_at : Option Nat
  deriving DecidableEq, Repr

/-- A row of the `refresh_tokens` table. -/
structure RefreshTokenRec where
  id : Nat
  user_id : Nat
  token_hash : Val
  expires_at : Nat
  revoked : Bool
  revoked_at : Option Nat
  deriving DecidableEq, Repr

/-- A row of the `password_resets` table. -/
structure PasswordResetRec where
  id : Nat
  user_id : Nat
  token_hash : Val
  expires_at : Nat
  used : Bool
  used_at : Option Nat
  ip_address : Option String
  user_agent : Option String
  deriving DecidableEq, Repr

/-- A row of the `email_verifications` table (keyed by email, not user id). -/
structure EmailVerificationRec where
  id : Nat
  email : String
  token_hash : Val
  expires_at : Nat
  verified : Bool
  verified_at : Option Nat
  ip_address : Option String
  user_agent : Option String
  deriving DecidableEq, Repr

/-- A row of the `user_sessions` table. -/
structure UserSessionRec where
  id : Nat
  user_id : Nat
  session_token : Val
  ip_address : Option String
  user_agent : Option String
  is_active : Bool
  expires_at : Nat
  ended_at : Option Nat
  deriving DecidableEq, Repr

/-- The persistent state seen by the service, plus a freshness counter that
supplies both generated row ids (`uuid()`) and random tokens
(`crypto.randomBytes`). -/
structure AuthState where
  users : List User
  refreshTokens : List RefreshTokenRec
  passwordResets : List PasswordResetRec
  emailVerifications : List EmailVerificationRec
  userSessions : List UserSessionRec
  nextId : Nat
  deriving DecidableEq, Repr

/-- The NestJS exceptions thrown by `AuthService`, with their message text. -/
inductive HttpError where
  | unauthorized (msg : String)
  | forbidden (msg : String)
  | conflict (msg : String)
  | badRequest (msg : String)
  | notFound (msg : String)
  deriving DecidableEq, Repr

/-- The token bundle returned by `generateTokens`. -/
structure Tokens where
  access_token : Val
  refresh_token : Val
  token_type : String
  expires_in : Nat
  deriving DecidableEq, Repr

/-- The `data` object of a successful login response. -/
structure LoginOk where
  user_id : Nat
  email : String
  status : UserStatus
  last_login_at : Option Nat
  tokens : Tokens
  deriving DecidableEq, Repr

/-- The `data` object of a successful registration response. -/
structure RegisterOk where
  user_id : Nat
  email : String
  status : UserStatus
  deriving DecidableEq, Repr

/-- Configuration read through `ConfigService.get`, with the source defaults
`MAX_FAILED_LOGIN_ATTEMPTS = 5` and `ACCOUNT_LOCK_DURATION = 30m`. -/
structure AuthConfig where
  maxFailedLoginAttempts : String := "5"
  accountLockDuration : String := "30m"
  deriving DecidableEq, Repr

/-- The default configuration of the source. -/
def defaultConfig : AuthConfig := {}

/-- Whether a character is an ASCII digit. -/
def isDigitChar (c : Char) : Bool :=
  decide (48 ≤ c.toNat) && decide (c.toNat ≤ 57)

/-- The numeric value of a digit string. -/
def digitsVal (cs : List Char) : Nat :=
  cs.foldl (fun a c => a * 10 + (c.toNat - 48)) 0

/-- JavaScript `parseInt` on the numeric case: the leading digit prefix, or
`none` (NaN) when the string does not start with a digit. -/
def parseIntJs (s : String) : Option Nat :=
  let ds := s.data.takeWhile isDigitChar
  if ds.isEmpty then none else some (digitsVal ds)

/-- The regex `(\d+)([mh])` applied to the lock-duration string in
`handleFailedLogin`: one or more digits followed by a unit letter. -/
def parseLockDuration (s : String) : Option (Nat × Char) :=
  match s.data.getLast? with
  | none => none
  | some u =>
    if (u = 'm' ∨ u = 'h') ∧ s.data.dropLast ≠ [] ∧ s.data.dropLast.all isDigitChar then
      some (digitsVal s.data.dropLast, u)
    else none

/-- The value `lockUntil` as computed in `handleFailedLogin`: `new Date()` plus the
parsed duration; when the duration string does not parse, the source leaves
`lockUntil` at the current time. -/
def lockUntilFor (cfgDur : String) (now : Nat) : Nat :=
  match parseLockDuration cfgDur with
  | some (v, u) => if u = 'm' then now + v * 60 else now + v * 3600
  | none => now

/-- The lock check of `login`: `user.locked_until && user.locked_until > new Date()`. -/
def isLockedAt (u : User) (now : Nat) : Bool :=
  match u.locked_until with
  | some t => decide (now < t)
  | none => false

/-- Model of `jwtService.verify`: succeeds on a well-formed signed token that has not
expired, returning the `sub` claim. -/
def jwtVerify (now : Nat) (t : Val) : Option Nat :=
  match t with
  | .jwt sub _iat exp => if now < exp then some sub else none
  | _ => none

/-- Model of `AuthService.handleFailedLogin`: reload the user, increment the failure
counter, and set `locked_until` once the counter reaches the configured
threshold. `parseInt` of a non-numeric maximum yields NaN in the source, and
every `>=` comparison with NaN is false, hence the `none` branch never locks. -/
def handleFailedLogin (cfg : AuthConfig) (s : AuthState) (now : Nat) (userId : Nat) :
    AuthState :=
  match s.users.find? (fun u => u.id == userId) with
  | none => s
  | some u =>
    let newAttempts := u.failed_login_attempts + 1
    let lock : Bool :=
      match parseIntJs cfg.maxFailedLoginAttempts with
      | some m => decide (newAttempts ≥ m)
      | none => false
    { s with users := s.users.map (fun x =>
        if x.id = userId then
          { x with
            failed_login_attempts := newAttempts,
            locked_until :=
              if lock then some (lockUntilFor cfg.accountLockDuration now)
              else x.locked_until }
        else x) }

/-- Model of `AuthService.generateTokens`: sign an access token (15 minutes) and a
refresh token (7 days) for the user, store the sha256 hash of the refresh
token with a 7-day expiry, and return the bundle. -/
def generateTokens (s : AuthState) (now : Nat) (userId : Nat) :
    AuthState × Tokens :=
  let accessToken := Val.jwt userId now (now + 15 * 60)
  let refreshToken := Val.jwt userId now (now + 7 * 86400)
  let row : RefreshTokenRec :=
    { id := s.nextId
      user_id := userId
      token_hash := hashToken refreshToken
      expires_at := now + 7 * 86400
      revoked := false
      revoked_at := none }
  ({ s with refreshTokens := s.refreshTokens ++ [row], nextId := s.nextId + 1 },
   { access_token := accessToken
     refresh_token := refreshToken
     token_type := "Bearer"
     expires_in := 900 })

/-- Model of `AuthService.register`. -/
def register (s : AuthState) (now : Nat) (email password : String)
    (ip ua : Option String) : AuthState × Except HttpError RegisterOk :=
  match s.users.find? (fun u => u.email == email) with
  | some _ => (s, .error (.conflict "Email already registered"))
  | none =>
    let passwordHash := Val.bhash password
    let user : User :=
      { id := s.nextId
        email := email
        password_hash := passwordHash
        email_verified := false
        email_verified_at := none
        status := .PENDING_VERIFICATION
        failed_login_attempts := 0
        locked_until := none
        last_login_at := none }
    let verificationToken := Val.rand (s.nextId + 1)
    let evRow : EmailVerificationRec :=
      { id := s.nextId + 2
        email := email
        token_hash := hashToken verificationToken
        expires_at := now + 24 * 3600
        verified := false
        verified_at := none
        ip_address := ip
        user_agent := ua }
    ({ s with
        users := s.users ++ [user]
        emailVerifications := s.emailVerifications ++ [evRow]
        nextId := s.nextId + 3 },
     .ok { user_id := user.id, email := user.email, status := user.status })

/-- Model of `AuthService.login`. The failed-password branch mutates the state through
`handleFailedLogin` before throwing. On full success the lockout fields are
reset, tokens are minted, and a session row is inserted whose
`session_token` column receives the freshly generated token as-is. -/
def login (cfg : AuthConfig) (s : AuthState) (now : Nat) (email password : String)
    (ip ua : Option String) : AuthState × Except HttpError LoginOk :=
  match s.users.find? (fun u => u.email == email) with
  | none => (s, .error (.unauthorized "Invalid credentials"))
  | some user =>
    if isLockedAt user now then
      (s, .error (.forbidden "Account is temporarily locked. Please try again later."))
    else if ¬ bcryptCompare password user.password_hash then
      (handleFailedLogin cfg s now user.id,
       .error (.unauthorized "Invalid credentials"))
    else if user.status = .PENDING_VERIFICATION then
      (s, .error (.unauthorized "Please verify your email address before logging in"))
    else if user.status ≠ .ACTIVE then
      (s, .error (.unauthorized "Account is not active"))
    else
      let s1 : AuthState := { s with users := s.users.map (fun x =>
        if x.id = user.id then
          { x with
            failed_login_attempts := 0,
            locked_until := none,
            last_login_at := some now }
        else x) }
      let st := generateTokens s1 now user.id
      let s2 := st.1
      let sessionToken := Val.rand s2.nextId
      let sessionRow : UserSessionRec :=
        { id := s2.nextId + 1
          user_id := user.id
          session_token := sessionToken
          ip_address := ip
          user_agent := ua
          is_active := true
          expires_at := now + 7 * 86400
          ended_at := none }
      ({ s2 with
          userSessions := s2.userSessions ++ [sessionRow]
          nextId := s2.nextId + 2 },
       .ok { user_id := user.id
             email := user.email
             status := user.status
             last_login_at := user.last_login_at
             tokens := st.2 })

/-- Model of `AuthService.refreshToken`: verify the JWT, look the hash up, reject a
missing, revoked or expired row, then mint a new pair and revoke the old row.
Any failure inside the `try` block is caught and rethrown as the same
`UnauthorizedException`. -/
def refreshTokenRotate (s : AuthState) (now : Nat) (rawToken : Val) :
    AuthState × Except HttpError Tokens :=
  match jwtVerify now rawToken with
  | none => (s, .error (.unauthorized "Invalid refresh token"))
  | some _payload =>
    let tokenHash := hashToken rawToken
    match s.refreshTokens.find? (fun r => r.token_hash == tokenHash) with
    | none => (s, .error (.unauthorized "Invalid refresh token"))
    | some stored =>
      if stored.revoked = true ∨ stored.expires_at < now then
        (s, .error (.unauthorized "Invalid refresh token"))
      else
        let st := generateTokens s now stored.user_id
        let s2 : AuthState := { st.1 with refreshTokens := st.1.refreshTokens.map (fun r =>
          if r.id = stored.id then { r with revoked := true, revoked_at := some now }
          else r) }
        (s2, .ok st.2)

/-- Model of `AuthService.logout`: revoke the non-revoked refresh tokens and end the
active sessions of the user. -/
def logout (s : AuthState) (now : Nat) (userId : Nat) :
    AuthState × Except HttpError Unit :=
  let s1 : AuthState := { s with refreshTokens := s.refreshTokens.map (fun r =>
    if r.user_id = userId ∧ r.revoked = false then
      { r with revoked := true, revoked_at := some now }
    else r) }
  let s2 : AuthState := { s1 with userSessions := s1.userSessions.map (fun x =>
    if x.user_id = userId ∧ x.is_active = true then
      { x with is_active := false, ended_at := some now }
    else x) }
  (s2, .ok ())

/-- Model of `AuthService.forgotPassword`: silently succeed on an unknown email,
otherwise store the hash of a fresh reset token with a 1-hour expiry. -/
def forgotPassword (s : AuthState) (now : Nat) (email : String)
    (ip ua : Option String) : AuthState × Except HttpError Unit :=
  match s.users.find? (fun u => u.email == email) with
  | none => (s, .ok ())
  | some user =>
    let resetToken := Val.rand s.nextId
    let row : PasswordResetRec :=
      { id := s.nextId + 1
        user_id := user.id
        token_hash := hashToken resetToken
        expires_at := now + 3600
        used := false
        used_at := none
        ip_address := ip
        user_agent := ua }
    ({ s with passwordResets := s.passwordResets ++ [row], nextId := s.nextId + 2 },
     .ok ())

/-- Model of `AuthService.resetPassword`: reject a missing, used or expired reset row;
otherwise update the password hash, mark the row used, and revoke every
non-revoked refresh token of the user. The source touches no session row. -/
def resetPassword (s : AuthState) (now : Nat) (token : Val) (newPassword : String) :
    AuthState × Except HttpError Unit :=
  let tokenHash := hashToken token
  match s.passwordResets.find? (fun r => r.token_hash == tokenHash) with
  | none => (s, .error (.badRequest "Invalid or expired reset token"))
  | some resetRecord =>
    if resetRecord.used = true ∨ resetRecord.expires_at < now then
      (s, .error (.badRequest "Invalid or expired reset token"))
    else
      let passwordHash := Val.bhash newPassword
      let s1 : AuthState := { s with
        users := s.users.map (fun u =>
          if u.id = resetRecord.user_id then { u with password_hash := passwordHash }
          else u)
        passwordResets := s.passwordResets.map (fun r =>
          if r.id = resetRecord.id then { r with used := true, used_at := some now }
          else r) }
      let s2 : AuthState := { s1 with refreshTokens := s1.refreshTokens.map (fun r =>
        if r.user_id = resetRecord.user_id ∧ r.revoked = false then
          { r with revoked := true, revoked_at := some now }
        else r) }
      (s2, .ok ())

/-- Model of `AuthService.verifyEmail`: reject a missing, consumed or expired
verification row; otherwise set the user with the recorded email to `ACTIVE`
and verified (no check of the prior status), and mark the row consumed. -/
def verifyEmail (s : AuthState) (now : Nat) (token : Val) :
    AuthState × Except HttpError Unit :=
  let tokenHash := hashToken token
  match s.emailVerifications.find? (fun r => r.token_hash == tokenHash) with
  | none => (s, .error (.badRequest "Invalid or expired verification token"))
  | some vRec =>
    if vRec.verified = true ∨ vRec.expires_at < now then
      (s, .error (.badRequest "Invalid or expired verification token"))
    else
      let s1 : AuthState := { s with
        users := s.users.map (fun u =>
          if u.email = vRec.email then
            { u with
              status := .ACTIVE,
              email_verified := true,
              email_verified_at := some now }
          else u)
        emailVerifications := s.emailVerifications.map (fun r =>
          if r.id = vRec.id then { r with verified := true, verified_at := some now }
          else r) }
      (s1, .ok ())

/-- Whether an operation result is a success. -/
def opOk {α : Type} : Except HttpError α → Bool
  | .ok _ => true
  | .error _ => false

/-- The empty store. -/
def emptyState : AuthState :=
  { users := []
    refreshTokens := []
    passwordResets := []
    emailVerifications := []
    userSessions := []
    nextId := 1 }

/-- A verified, active account used as a concrete fixture. -/
def userA : User :=
  { id := 1
    email := "a@x.com"
    password_hash := Val.bhash "Passw0rd!"
    email_verified := true
    email_verified_at := some 0
    status := .ACTIVE
    failed_login_attempts := 0
    locked_until := none
    last_login_at := none }

/-- A store holding only `userA`. -/
def stateA : AuthState :=
  { users := [userA]
    refreshTokens := []
    passwordResets := []
    emailVerifications := []
    userSessions := []
    nextId := 2 }

/-- A live stored refresh token for `userA`, hash of the token signed at
time 0. -/
def rtRowA : RefreshTokenRec :=
  { id := 10
    user_id := 1
    token_hash := hashToken (Val.jwt 1 0 604800)
    expires_at := 604800
    revoked := false
    revoked_at := none }

/-- A fresh password-reset token row for `userA`. -/
def prRowA : PasswordResetRec :=
  { id := 20
    user_id := 1
    token_hash := hashToken (Val.rand 7)
    expires_at := 1000
    used := false
    used_at := none
    ip_address := none
    user_agent := none }

/-- An active session row for `userA`. -/
def sessRowA : UserSessionRec :=
  { id := 30
    user_id := 1
    session_token := Val.rand 8
    ip_address := none
    user_agent := none
    is_active := true
    expires_at := 604800
    ended_at := none }

/-- A store with `userA`, a live refresh token, a fresh password-reset token
and an active session, used as a concrete fixture. -/
def stateReset : AuthState :=
  { users := [userA]
    refreshTokens := [rtRowA]
    passwordResets := [prRowA]
    emailVerifications := []
    userSessions := [sessRowA]
    nextId := 40 }

/-- A suspended account. -/
def userS : User :=
  { id := 1
    email := "s@x.com"
    password_hash := Val.bhash "Passw0rd!"
    email_verified := false
    email_verified_at := none
    status := .SUSPENDED
    failed_login_attempts := 0
    locked_until := none
    last_login_at := none }

/-- A fresh email-verification row for the address of `userS`. -/
def evRowS : EmailVerificationRec :=
  { id := 5
    email := "s@x.com"
    token_hash := hashToken (Val.rand 9)
    expires_at := 1000
    verified := false
    verified_at := none
    ip_address := none
    user_agent := none }

/-- A store with a suspended account and a fresh email-verification token for
its address, used as a concrete fixture. -/
def stateVerify : AuthState :=
  { users := [userS]
    refreshTokens := []
    passwordResets := []
    emailVerifications := [evRowS]
    userSessions := []
    nextId := 6 }

/-- Account `userA` with a nonzero failure count and a lapsed lockout. -/
def userL : User :=
  { userA with
      failed_login_attempts := 3,
      locked_until := some 50,
      last_login_at := some 7 }

/-- A store with `userL`, used as a concrete fixture for the
successful-login reset. -/
def stateL : AuthState :=
  { users := [userL]
    refreshTokens := []
    passwordResets := []
    emailVerifications := []
    userSessions := []
    nextId := 2 }

/-- A store with `userA` and one live stored refresh token, used as a
concrete fixture for rotation. -/
def stateRefresh : AuthState :=
  { users := [userA]
    refreshTokens := [rtRowA]
    passwordResets := []
    emailVerifications := []
    userSessions := []
    nextId := 40 }

/-- Constructor shorthand for an account row. -/
def mkUser (uid : Nat) (e : String) (ph : Val) (evb : Bool) (eva : Option Nat)
    (st : UserStatus) (failed : Nat) (locked lla : Option Nat) : User :=
  { id := uid
    email := e
    password_hash := ph
    email_verified := evb
    email_verified_at := eva
    status := st
    failed_login_attempts := failed
    locked_until := locked
    last_login_at := lla }

/-- A store whose user table holds exactly one account. -/
def oneUserState (u : User) (rt : List RefreshTokenRec) (pr : List PasswordResetRec)
    (ev : List EmailVerificationRec) (ss : List UserSessionRec) (n : Nat) :
    AuthState :=
  { users := [u]
    refreshTokens := rt
    passwordResets := pr
    emailVerifications := ev
    userSessions := ss
    nextId := n }

/-- The row expected for `userL` after a successful login at time 100. -/
def userLAfterLogin : User :=
  { userA with
      failed_login_attempts := 0,
      locked_until := none,
      last_login_at := some 100 }

/-- The row expected for `userS` after consuming its verification token at
time 10. -/
def userSActive : User :=
  { userS with
      status := .ACTIVE,
      email_verified := true,
      email_verified_at := some 10 }

theorem defaultConfig_maxAttempts : defaultConfig.maxFailedLoginAttempts = "5" := rfl

theorem defaultConfig_lockDuration : defaultConfig.accountLockDuration = "30m" := rfl

theorem parseIntJs_lit_five : parseIntJs "5" = some 5 := by decide

theorem lockUntilFor_30m (now : Nat) : lockUntilFor "30m" now = now + 1800 := by
  have h : parseLockDuration "30m" = some (30, 'm') := by decide
  simp [lockUntilFor, h]

theorem find?_map_congr {α : Type} (p : α → Bool) (f : α → α)
    (hpf : ∀ x, p (f x) = p x) {l : List α} {a : α}
    (hf : l.find? p = some a) : (l.map f).find? p = some (f a) := by
  rw [List.find?_map]
  have hc : p ∘ f = p := funext hpf
  rw [hc, hf]
  rfl

/-- C3: the claim says every persisted secret, the login session token
included, is stored as a one-way hash. The source stores the refresh-token
hash but writes the freshly generated session token into
`user_sessions.session_token` as-is, contradicting both the spec and the
repository schema documentation (all sensitive tokens hashed): at the
failing input, a successful login leaves a raw (non-hash) session token at
rest while the refresh token is hashed. -/
theorem login_stores_raw_session_token :
    opOk (login defaultConfig stateA 100 "a@x.com" "Passw0rd!" none none).2 = true
    ∧ (login defaultConfig stateA 100 "a@x.com" "Passw0rd!" none none).1.userSessions.map
        (fun r => r.session_token) = [Val.rand 3]
    ∧ (login defaultConfig stateA 100 "a@x.com" "Passw0rd!" none none).1.userSessions.map
        (fun r => isHashVal r.session_token) = [false]
    ∧ (login defaultConfig stateA 100 "a@x.com" "Passw0rd!" none none).1.refreshTokens.map
        (fun r => isHashVal r.token_hash) = [true] :=
  ⟨rfl, rfl, rfl, rfl⟩

/-- C5 counterexample: a successful password reset leaves the active session
of the account untouched, refuting the part of the claim that says reset
ends all active sessions of the account. -/
theorem reset_password_leaves_sessions_active :
    (resetPassword stateReset 10 (Val.rand 7) "NewPassw0rd!").2 = .ok ()
    ∧ (resetPassword stateReset 10 (Val.rand 7) "NewPassw0rd!").1.userSessions.map
        (fun x => x.is_active) = [true] :=
  ⟨rfl, rfl⟩

/-- C7 counterexample: after registering `a@x.com`, registering `A@x.com`
(differing only in letter case) succeeds and creates a second account instead
of failing with the conflict error, refuting case-insensitive uniqueness. -/
theorem case_variant_email_registration_succeeds :
    opOk (register emptyState 0 "a@x.com" "Passw0rd!" none none).2 = true
    ∧ opOk (register (register emptyState 0 "a@x.com" "Passw0rd!" none none).1
        1 "A@x.com" "Passw0rd!" none none).2 = true
    ∧ (register (register emptyState 0 "a@x.com" "Passw0rd!" none none).1
        1 "A@x.com" "Passw0rd!" none none).1.users.length = 2 :=
  ⟨rfl, rfl, rfl⟩

/-- C8: an unknown email and a wrong password on a known, unlocked account
produce the identical generic error, an unauthorized exception with message
`Invalid credentials`, so the caller cannot enumerate users. -/
theorem login_no_user_enumeration
    (cfg : AuthConfig) (s : AuthState) (now : Nat)
    (e1 p1 e2 p2 : String) (ip1 ua1 ip2 ua2 : Option String) (u : User)
    (h1 : s.users.find? (fun x => x.email == e1) = none)
    (h2 : s.users.find? (fun x => x.email == e2) = some u)
    (h3 : isLockedAt u now = false)
    (h4 : bcryptCompare p2 u.password_hash = false) :
    (login cfg s now e1 p1 ip1 ua1).2 = .error (.unauthorized "Invalid credentials")
    ∧ (login cfg s now e2 p2 ip2 ua2).2 = .error (.unauthorized "Invalid credentials") := by
  constructor
  · simp only [login, h1]
  · simp only [login, h2, h3, h4]
    simp

/-- C8 witness: concrete instance with an unknown address and a wrong
password against the stored account. -/
theorem login_no_user_enumeration_witness :
    (login defaultConfig stateA 100 "zz@x.com" "whatever" none none).2
      = .error (.unauthorized "Invalid credentials")
    ∧ (login defaultConfig stateA 100 "a@x.com" "wrongPass" none none).2
      = .error (.unauthorized "Invalid credentials") :=
  login_no_user_enumeration defaultConfig stateA 100 "zz@x.com" "whatever"
    "a@x.com" "wrongPass" none none none none userA
    (by decide) (by decide) (by decide) (by decide)

/-- C4: every successful login resets the failure counter to 0, clears
`locked_until`, and stamps `last_login_at` with the login time, for the
account named in the result, whatever the prior counter and lockout were. -/
theorem login_success_resets_lockout
    (cfg : AuthConfig) (s s2 : AuthState) (now : Nat) (email password : String)
    (ip ua : Option String) (r : LoginOk)
    (h : login cfg s now email password ip ua = (s2, .ok r)) :
    ∀ u ∈ s2.users, u.id = r.user_id →
      u.failed_login_attempts = 0 ∧ u.locked_until = none
        ∧ u.last_login_at = some now := by
  unfold login at h
  split at h
  · exact Except.noConfusion (congrArg Prod.snd h)
  case h_2 user hfind =>
    split at h
    · exact Except.noConfusion (congrArg Prod.snd h)
    split at h
    · exact Except.noConfusion (congrArg Prod.snd h)
    split at h
    · exact Except.noConfusion (congrArg Prod.snd h)
    split at h
    · exact Except.noConfusion (congrArg Prod.snd h)
    injection h with h1 h2
    injection h2 with h2
    subst h1
    subst h2
    intro u hu hid
    simp only [generateTokens] at hu
    obtain ⟨x, hx, hfx⟩ := List.mem_map.mp hu
    by_cases hxid : x.id = user.id
    · simp only [hxid, if_pos rfl] at hfx
      subst hfx
      exact ⟨rfl, rfl, rfl⟩
    · rw [if_neg hxid] at hfx
      subst hfx
      exact absurd hid hxid

/-- C4 witness: logging `userA` in with three prior failures and a lapsed
lockout yields an account row with the counter reset, no lockout and a fresh
`last_login_at`. -/
theorem login_success_resets_lockout_witness :
    userLAfterLogin.failed_login_attempts = 0
    ∧ userLAfterLogin.locked_until = none
    ∧ userLAfterLogin.last_login_at = some 100 :=
  login_success_resets_lockout defaultConfig stateL
    (login defaultConfig stateL 100 "a@x.com" "Passw0rd!" none none).1
    100 "a@x.com" "Passw0rd!" none none
    { user_id := 1
      email := "a@x.com"
      status := .ACTIVE
      last_login_at := some 7
      tokens :=
        { access_token := Val.jwt 1 100 1000
          refresh_token := Val.jwt 1 100 604900
          token_type := "Bearer"
          expires_in := 900 } }
    rfl userLAfterLogin (by decide) rfl

/-- C10: consuming a stored, unconsumed, unexpired email-verification token
succeeds and forces every account with the recorded email to status ACTIVE
with `email_verified = true`, with no check of the prior status. -/
theorem verify_email_ignores_prior_status
    (s : AuthState) (now : Nat) (tok : Val) (r : EmailVerificationRec)
    (hfind : s.emailVerifications.find? (fun x => x.token_hash == hashToken tok)
      = some r)
    (hv : r.verified = false) (he : ¬ r.expires_at < now) :
    (verifyEmail s now tok).2 = .ok ()
    ∧ ∀ u ∈ (verifyEmail s now tok).1.users, u.email = r.email →
        u.status = .ACTIVE ∧ u.email_verified = true := by
  simp only [verifyEmail]
  rw [hfind]
  simp only [hv]
  rw [if_neg (by simp [he])]
  refine ⟨rfl, ?_⟩
  intro u hu hmail
  obtain ⟨x, hx, hfx⟩ := List.mem_map.mp hu
  by_cases hxe : x.email = r.email
  · rw [if_pos hxe] at hfx
    subst hfx
    exact ⟨rfl, rfl⟩
  · rw [if_neg hxe] at hfx
    subst hfx
    exact absurd hmail hxe

/-- C10 witness: a SUSPENDED account is reactivated to ACTIVE by consuming a
verification token for its address. -/
theorem verify_email_ignores_prior_status_witness :
    (verifyEmail stateVerify 10 (Val.rand 9)).2 = .ok ()
    ∧ userSActive.status = .ACTIVE
    ∧ userSActive.email_verified = true := by
  have h := verify_email_ignores_prior_status stateVerify 10 (Val.rand 9) evRowS
    rfl rfl (by decide)
  exact ⟨h.1, h.2 userSActive (by decide) rfl⟩

/-- C7 amended: registration uniqueness is exact-string uniqueness, not
case-insensitive: after any successful registration, a second registration
with the identical email string fails with the conflict error (while a
case variant is accepted as a distinct account, see the counterexample). -/
theorem duplicate_exact_email_registration_conflicts
    (s s1 : AuthState) (now1 now2 : Nat) (e p1 p2 : String)
    (ip1 ua1 ip2 ua2 : Option String) (r : RegisterOk)
    (h : register s now1 e p1 ip1 ua1 = (s1, .ok r)) :
    (register s1 now2 e p2 ip2 ua2).2
      = .error (.conflict "Email already registered") := by
  simp only [register] at h
  split at h
  · exact Except.noConfusion (congrArg Prod.snd h)
  case h_2 hnone =>
    injection h with h1 h2
    subst h1
    simp only [register]
    rw [List.find?_append, hnone, Option.none_or,
      List.find?_cons_of_pos _ (by simp)]

/-- C7 amended witness: registering the very same address twice yields the
conflict error on the second attempt. -/
theorem duplicate_exact_email_registration_conflicts_witness :
    (register (register emptyState 0 "a@x.com" "Passw0rd!" none none).1
      1 "a@x.com" "Again1Pw!" none none).2
      = .error (.conflict "Email already registered") :=
  duplicate_exact_email_registration_conflicts emptyState
    (register emptyState 0 "a@x.com" "Passw0rd!" none none).1
    0 1 "a@x.com" "Passw0rd!" "Again1Pw!" none none none none
    { user_id := 1, email := "a@x.com", status := .PENDING_VERIFICATION }
    rfl

/-- C5 amended: a successful password reset updates the password hash of the
account, marks the reset row used, and revokes every refresh token of the
account, but leaves the session table untouched (sessions are ended only by
logout, not by password reset). -/
theorem reset_password_effects
    (s : AuthState) (now : Nat) (tok : Val) (np : String) (r : PasswordResetRec)
    (hfind : s.passwordResets.find? (fun x => x.token_hash == hashToken tok)
      = some r)
    (hused : r.used = false) (hexp : ¬ r.expires_at < now) :
    (resetPassword s now tok np).2 = .ok ()
    ∧ (∀ u ∈ (resetPassword s now tok np).1.users, u.id = r.user_id →
        u.password_hash = Val.bhash np)
    ∧ (∀ x ∈ (resetPassword s now tok np).1.passwordResets, x.id = r.id →
        x.used = true)
    ∧ (∀ t ∈ (resetPassword s now tok np).1.refreshTokens, t.user_id = r.user_id →
        t.revoked = true)
    ∧ (resetPassword s now tok np).1.userSessions = s.userSessions := by
  simp only [resetPassword]
  rw [hfind]
  simp only [hused]
  rw [if_neg (by simp [hexp])]
  refine ⟨rfl, ?_, ?_, ?_, rfl⟩
  · intro u hu hid
    obtain ⟨x, hx, hfx⟩ := List.mem_map.mp hu
    by_cases hxid : x.id = r.user_id
    · rw [if_pos hxid] at hfx
      subst hfx
      rfl
    · rw [if_neg hxid] at hfx
      subst hfx
      exact absurd hid hxid
  · intro x hx hid
    obtain ⟨y, hy, hfy⟩ := List.mem_map.mp hx
    by_cases hyid : y.id = r.id
    · rw [if_pos hyid] at hfy
      subst hfy
      rfl
    · rw [if_neg hyid] at hfy
      subst hfy
      exact absurd hid hyid
  · intro t ht hid
    obtain ⟨y, hy, hfy⟩ := List.mem_map.mp ht
    subst hfy
    by_cases hc : y.user_id = r.user_id ∧ y.revoked = false
    · rw [if_pos hc]
    · rw [if_neg hc] at hid ⊢
      rcases Bool.eq_false_or_eq_true y.revoked with hrv | hrv
      · exact hrv
      · exact absurd ⟨hid, hrv⟩ hc

/-- C5 amended witness: concrete successful reset leaving the session row
active. -/
theorem reset_password_effects_witness :
    (resetPassword stateReset 10 (Val.rand 7) "NewPassw0rd!").2 = .ok ()
    ∧ (resetPassword stateReset 10 (Val.rand 7) "NewPassw0rd!").1.userSessions
      = stateReset.userSessions := by
  have h := reset_password_effects stateReset 10 (Val.rand 7) "NewPassw0rd!"
    prRowA rfl rfl (by decide)
  exact ⟨h.1, h.2.2.2.2⟩

/-- C6: password-reset tokens are single-use: consuming a stored, unused,
unexpired reset token succeeds, and after any successful consumption every
further consumption of the same raw token fails with the invalid-or-expired
error, at any later time, expired or not. -/
theorem reset_token_single_use
    (s : AuthState) (now now2 : Nat) (tok : Val) (np np2 : String) :
    (∀ r, s.passwordResets.find? (fun x => x.token_hash == hashToken tok)
        = some r → r.used = false → ¬ r.expires_at < now →
        (resetPassword s now tok np).2 = .ok ())
    ∧ (∀ s2, resetPassword s now tok np = (s2, .ok ()) →
        (resetPassword s2 now2 tok np2).2
          = .error (.badRequest "Invalid or expired reset token")) := by
  constructor
  · intro r hfind hused hexp
    simp only [resetPassword]
    rw [hfind]
    simp only [hused]
    rw [if_neg (by simp [hexp])]
  · intro s2 h
    simp only [resetPassword] at h
    split at h
    · exact Except.noConfusion (congrArg Prod.snd h)
    case h_2 resetRecord heq =>
      split at h
      · exact Except.noConfusion (congrArg Prod.snd h)
      injection h with h1 h2
      subst h1
      simp only [resetPassword]
      have hpf : ∀ x : PasswordResetRec,
          (fun y : PasswordResetRec => y.token_hash == hashToken tok)
            (if x.id = resetRecord.id then
              { x with used := true, used_at := some now } else x)
          = (fun y : PasswordResetRec => y.token_hash == hashToken tok) x := by
        intro x
        by_cases hx : x.id = resetRecord.id
        · rw [if_pos hx]
        · rw [if_neg hx]
      rw [find?_map_congr _ _ hpf heq]
      simp

/-- C6 witness: consuming the concrete reset token twice yields success and
then the invalid-or-expired error. -/
theorem reset_token_single_use_witness :
    (resetPassword (resetPassword stateReset 10 (Val.rand 7) "NewPassw0rd!").1
      20 (Val.rand 7) "OtherPassw0rd!").2
      = .error (.badRequest "Invalid or expired reset token") :=
  (reset_token_single_use stateReset 10 20 (Val.rand 7) "NewPassw0rd!"
    "OtherPassw0rd!").2
    (resetPassword stateReset 10 (Val.rand 7) "NewPassw0rd!").1 rfl

/-- C1: refresh rotation fails with the invalid-refresh-token error whenever
the hash lookup misses, or the stored row is revoked or expired; and a
successful rotation revokes the old row, so rotating the same raw token
again always fails with the same error. -/
theorem refresh_rotation_single_use
    (s : AuthState) (now now2 : Nat) (raw : Val) :
    ((∀ r, s.refreshTokens.find? (fun x => x.token_hash == hashToken raw)
        = some r → r.revoked = true ∨ r.expires_at < now) →
      (refreshTokenRotate s now raw).2
        = .error (.unauthorized "Invalid refresh token"))
    ∧ (∀ s2 tk, refreshTokenRotate s now raw = (s2, .ok tk) →
        (refreshTokenRotate s2 now2 raw).2
          = .error (.unauthorized "Invalid refresh token")) := by
  constructor
  · intro hbad
    simp only [refreshTokenRotate]
    split
    · rfl
    split
    · rfl
    case h_2 stored heq =>
      rw [if_pos (hbad stored heq)]
  · intro s2 tk h
    simp only [refreshTokenRotate] at h
    split at h
    · exact Except.noConfusion (congrArg Prod.snd h)
    split at h
    · exact Except.noConfusion (congrArg Prod.snd h)
    case h_2 stored heq =>
      split at h
      · exact Except.noConfusion (congrArg Prod.snd h)
      injection h with h1 h2
      subst h1
      simp only [refreshTokenRotate]
      split
      · rfl
      simp only [generateTokens]
      have hpf : ∀ x : RefreshTokenRec,
          (fun y : RefreshTokenRec => y.token_hash == hashToken raw)
            (if x.id = stored.id then
              { x with revoked := true, revoked_at := some now } else x)
          = (fun y : RefreshTokenRec => y.token_hash == hashToken raw) x := by
        intro x
        by_cases hx : x.id = stored.id
        · rw [if_pos hx]
        · rw [if_neg hx]
      rw [List.map_append, List.find?_append, find?_map_congr _ _ hpf heq,
        Option.or_some]
      simp

/-- C1 witness: rotating the concrete valid refresh token once succeeds;
rotating the same raw token again fails with the invalid-refresh-token
error. -/
theorem refresh_rotation_single_use_witness :
    (refreshTokenRotate (refreshTokenRotate stateRefresh 10 (Val.jwt 1 0 604800)).1
      20 (Val.jwt 1 0 604800)).2
      = .error (.unauthorized "Invalid refresh token") :=
  (refresh_rotation_single_use stateRefresh 10 20 (Val.jwt 1 0 604800)).2
    (refreshTokenRotate stateRefresh 10 (Val.jwt 1 0 604800)).1
    { access_token := Val.jwt 1 10 910
      refresh_token := Val.jwt 1 10 604810
      token_type := "Bearer"
      expires_in := 900 }
    rfl

/-- One failed login attempt against a single-account store with an unlocked
account under the default configuration: the attempt is rejected with the
generic error and `handleFailedLogin` counts it, locking for 30 minutes once
the counter reaches 5. -/
theorem login_wrong_password_step
    (u : User) (rt : List RefreshTokenRec) (pr : List PasswordResetRec)
    (ev : List EmailVerificationRec) (ss : List UserSessionRec) (n : Nat)
    (t : Nat) (e wrong : String) (ip ua : Option String)
    (hemail : u.email = e)
    (hunlocked : isLockedAt u t = false)
    (hwrong : bcryptCompare wrong u.password_hash = false) :
    login defaultConfig (oneUserState u rt pr ev ss n) t e wrong ip ua =
      (oneUserState
        { u with
          failed_login_attempts := u.failed_login_attempts + 1
          locked_until :=
            if u.failed_login_attempts + 1 ≥ 5 then some (t + 1800)
            else u.locked_until }
        rt pr ev ss n,
       .error (.unauthorized "Invalid credentials")) := by
  simp only [login, oneUserState]
  rw [List.find?_cons_of_pos _ (by simp [hemail])]
  simp only [hunlocked, hwrong, handleFailedLogin, defaultConfig_maxAttempts,
    defaultConfig_lockDuration, parseIntJs_lit_five, lockUntilFor_30m]
  rw [List.find?_cons_of_pos _ (by simp)]
  simp [decide_eq_true_eq]

/-- C2: starting from a clean account (no failures, no lockout), five
consecutive wrong-password logins each fail with the generic error; the
fifth sets `locked_until` thirty minutes into the future; and a sixth
attempt before that moment, with the correct password, fails with the
account-locked error. -/
theorem account_locks_after_five_failed_logins
    (uid n : Nat) (e pw wrong : String) (st : UserStatus) (evb : Bool)
    (eva lla : Option Nat)
    (rt : List RefreshTokenRec) (pr : List PasswordResetRec)
    (ev : List EmailVerificationRec) (ss : List UserSessionRec)
    (ip ua : Option String) (t1 t2 t3 t4 t5 t6 : Nat)
    (hne : wrong ≠ pw) (h6 : t6 < t5 + 1800) :
    login defaultConfig
        (oneUserState (mkUser uid e (Val.bhash pw) evb eva st 0 none lla)
          rt pr ev ss n) t1 e wrong ip ua
      = (oneUserState (mkUser uid e (Val.bhash pw) evb eva st 1 none lla)
          rt pr ev ss n, .error (.unauthorized "Invalid credentials"))
    ∧ login defaultConfig
        (oneUserState (mkUser uid e (Val.bhash pw) evb eva st 1 none lla)
          rt pr ev ss n) t2 e wrong ip ua
      = (oneUserState (mkUser uid e (Val.bhash pw) evb eva st 2 none lla)
          rt pr ev ss n, .error (.unauthorized "Invalid credentials"))
    ∧ login defaultConfig
        (oneUserState (mkUser uid e (Val.bhash pw) evb eva st 2 none lla)
          rt pr ev ss n) t3 e wrong ip ua
      = (oneUserState (mkUser uid e (Val.bhash pw) evb eva st 3 none lla)
          rt pr ev ss n, .error (.unauthorized "Invalid credentials"))
    ∧ login defaultConfig
        (oneUserState (mkUser uid e (Val.bhash pw) evb eva st 3 none lla)
          rt pr ev ss n) t4 e wrong ip ua
      = (oneUserState (mkUser uid e (Val.bhash pw) evb eva st 4 none lla)
          rt pr ev ss n, .error (.unauthorized "Invalid credentials"))
    ∧ login defaultConfig
        (oneUserState (mkUser uid e (Val.bhash pw) evb eva st 4 none lla)
          rt pr ev ss n) t5 e wrong ip ua
      = (oneUserState
          (mkUser uid e (Val.bhash pw) evb eva st 5 (some (t5 + 1800)) lla)
          rt pr ev ss n, .error (.unauthorized "Invalid credentials"))
    ∧ t5 < t5 + 1800
    ∧ (login defaultConfig
        (oneUserState
          (mkUser uid e (Val.bhash pw) evb eva st 5 (some (t5 + 1800)) lla)
          rt pr ev ss n) t6 e pw ip ua).2
      = .error (.forbidden
          "Account is temporarily locked. Please try again later.") := by
  have hw : bcryptCompare wrong (Val.bhash pw) = false := by
    rw [bcryptCompare, beq_eq_false_iff_ne]
    intro hcontra
    injection hcontra with hx
    exact hne hx.symm
  refine ⟨?_, ?_, ?_, ?_, ?_, by omega, ?_⟩
  · exact login_wrong_password_step _ rt pr ev ss n t1 e wrong ip ua rfl rfl hw
  · exact login_wrong_password_step _ rt pr ev ss n t2 e wrong ip ua rfl rfl hw
  · exact login_wrong_password_step _ rt pr ev ss n t3 e wrong ip ua rfl rfl hw
  · exact login_wrong_password_step _ rt pr ev ss n t4 e wrong ip ua rfl rfl hw
  · exact login_wrong_password_step _ rt pr ev ss n t5 e wrong ip ua rfl rfl hw
  · simp only [login, oneUserState]
    rw [List.find?_cons_of_pos _ (by simp [mkUser])]
    have hlock : isLockedAt
        (mkUser uid e (Val.bhash pw) evb eva st 5 (some (t5 + 1800)) lla) t6
        = true := by
      simp [isLockedAt, mkUser, h6]
    simp [hlock]

/-- C2 witness: at the concrete run, the sixth attempt with the correct
password is rejected with the account-locked error. -/
theorem account_locks_after_five_failed_logins_witness :
    (login defaultConfig
        (oneUserState
          (mkUser 1 "a@x.com" (Val.bhash "Passw0rd!") true none .ACTIVE 5
            (some (14 + 1800)) none) [] [] [] [] 1) 15 "a@x.com" "Passw0rd!"
        none none).2
      = .error (.forbidden
          "Account is temporarily locked. Please try again later.") :=
  (account_locks_after_five_failed_logins 1 1 "a@x.com" "Passw0rd!" "nope"
    .ACTIVE true none none [] [] [] [] none none 10 11 12 13 14 15
    (by decide) (by decide)).2.2.2.2.2.2

/-- C9: for an account whose lockout has lapsed while the counter sits at
the threshold of 5, a single further wrong-password attempt is rejected with
the generic error and immediately re-locks the account for the full thirty
minutes from the time of that attempt. -/
theorem lapsed_lockout_relocks_on_next_failure
    (uid n : Nat) (e pw wrong : String) (st : UserStatus) (evb : Bool)
    (eva lla : Option Nat)
    (rt : List RefreshTokenRec) (pr : List PasswordResetRec)
    (ev : List EmailVerificationRec) (ss : List UserSessionRec)
    (ip ua : Option String) (t0 now : Nat)
    (hne : wrong ≠ pw) (hpast : t0 ≤ now) :
    login defaultConfig
        (oneUserState (mkUser uid e (Val.bhash pw) evb eva st 5 (some t0) lla)
          rt pr ev ss n) now e wrong ip ua
      = (oneUserState
          (mkUser uid e (Val.bhash pw) evb eva st 6 (some (now + 1800)) lla)
          rt pr ev ss n, .error (.unauthorized "Invalid credentials"))
    ∧ now < now + 1800 := by
  have hw : bcryptCompare wrong (Val.bhash pw) = false := by
    rw [bcryptCompare, beq_eq_false_iff_ne]
    intro hcontra
    injection hcontra with hx
    exact hne hx.symm
  have hunlocked : isLockedAt
      (mkUser uid e (Val.bhash pw) evb eva st 5 (some t0) lla) now = false := by
    simp [isLockedAt, mkUser]
    omega
  refine ⟨?_, by omega⟩
  exact login_wrong_password_step _ rt pr ev ss n now e wrong ip ua rfl
    hunlocked hw

/-- C9 witness: concrete account with a lockout that expired at time 50 and
counter 5 is re-locked until 1900 by one wrong password at time 100. -/
theorem lapsed_lockout_relocks_on_next_failure_witness :
    login defaultConfig
        (oneUserState
          (mkUser 1 "a@x.com" (Val.bhash "Passw0rd!") true none .ACTIVE 5
            (some 50) none) [] [] [] [] 1) 100 "a@x.com" "nope" none none
      = (oneUserState
          (mkUser 1 "a@x.com" (Val.bhash "Passw0rd!") true none .ACTIVE 6
            (some (100 + 1800)) none) [] [] [] [] 1,
         .error (.unauthorized "Invalid credentials")) :=
  (lapsed_lockout_relocks_on_next_failure 1 1 "a@x.com" "Passw0rd!" "nope"
    .ACTIVE true none none [] [] [] [] none none 50 100
    (by decide) (by decide)).1
